import Mathlib

/-!
Verification development for the streaming-platform client
(`src/streaming-platform.js`).  The definitions below are shallow
embeddings of the entitlement gate, the single-device session guard, the
device-identity helper, the embed-player gating and failover logic, and
the watch-progress tracker.  JavaScript truthiness on strings is made
explicit, nullable columns become `Option`, times are `Int` (epoch
instants) or `ℚ` (seconds), and effectful results (datastore rows
written, provider sign-outs, notifications) are returned as data.
-/

/-- Truthiness of a nullable JavaScript string: `null`/`undefined` and the
empty string are falsy, every other string is truthy. -/
def jsTruthyStr : Option String → Bool
  | none => false
  | some s => s != ""

/-! ## EntitlementGate: `isAllowedUser` (src/streaming-platform.js lines 118-154) -/

/-- A row of the `allowed_users` table as the client reads it:
`approved` may be true, false or null-ish, `expiry_date` may be absent.
The expiry date is modelled as an epoch instant. -/
structure AllowedRow where
  email : String
  approved : Option Bool
  expiry_date : Option Int
deriving Repr, DecidableEq

/-- Outcome of the datastore lookup inside `isAllowedUser`: either the
awaited call threw, or it resolved to `{ data, error }` where `error`
carries a code (`"PGRST116"` is the no-rows code of `.single()`). -/
inductive AllowedLookup where
  | thrown
  | result (data : Option AllowedRow) (errorCode : Option String)
deriving Repr, DecidableEq

/-- The value `isAllowedUser` resolves to. -/
structure AllowedResult where
  allowed : Bool
  reason : Option String
  expiryDate : Option Int
deriving Repr, DecidableEq

/-- Embedding of `isAllowedUser` (lines 118-154): a lookup error other
than the no-rows code fails closed with reason `error`, a missing row
yields `not_found`, `approved !== true` yields `not_approved`, a present
expiry date strictly before now yields `expired`, otherwise the user is
allowed; a thrown exception is caught and fails closed with `error`. -/
def isAllowedUser (lookup : AllowedLookup) (now : Int) : AllowedResult :=
  match lookup with
  | .thrown => ⟨false, some "error", none⟩
  | .result data errorCode =>
    if errorCode.isSome ∧ errorCode ≠ some "PGRST116" then
      ⟨false, some "error", none⟩
    else
      match data with
      | none => ⟨false, some "not_found", none⟩
      | some row =>
        if row.approved = some true then
          match row.expiry_date with
          | some e => if e < now then ⟨false, some "expired", none⟩ else ⟨true, none, some e⟩
          | none => ⟨true, none, none⟩
        else
          ⟨false, some "not_approved", none⟩

/-! ## WatchProgressTracker: `updateWatchProgress` (lines 1306-1336) and the
`loadContinueWatching` mapping (lines 1148-1159) -/

/-- The progress-relevant columns of the `continue_watching` row upserted
by `updateWatchProgress`: `watch_progress` and `total_duration` are
floored to whole seconds, `completed` is the over-90-percent flag. -/
structure ProgressRow where
  watch_progress : Int
  total_duration : Int
  completed : Bool
deriving Repr, DecidableEq

/-- The `progressPercent` computation of `updateWatchProgress` (line
1310): guarded against non-positive durations, in which case it is 0. -/
def progressPercent (currentTime duration : ℚ) : ℚ :=
  if 0 < duration then currentTime / duration * 100 else 0

/-- Embedding of `updateWatchProgress` (lines 1306-1336): returns `none`
when the guard `!currentUser || !mediaItem || currentTime < 60` fires
(no row is written), otherwise the row that is upserted, with
`completed` true exactly when the computed percentage exceeds 90. -/
def updateWatchProgress (hasUser hasItem : Bool) (currentTime duration : ℚ) : Option ProgressRow :=
  if hasUser = false ∨ hasItem = false ∨ currentTime < 60 then none
  else
    some ⟨⌊currentTime⌋, ⌊duration⌋, decide (90 < progressPercent currentTime duration)⟩

/-- The `progress_percentage` field computed by `loadContinueWatching`
(line 1156) from a stored row: `total_duration > 0 ? watch_progress /
total_duration * 100 : 0`. -/
def progressPercentage (watch_progress total_duration : Int) : ℚ :=
  if 0 < total_duration then (watch_progress : ℚ) / (total_duration : ℚ) * 100 else 0

/-! ## DeviceIdentity: `getDeviceId` (lines 484-496) -/

/-- The environment `getDeviceId` runs in: the current content of local
storage under the fixed key, the outcome of `crypto.randomUUID()`
(`none` when it throws and the timestamp-plus-random fallback is used),
the fallback composite, and whether `localStorage.setItem` throws. -/
structure DeviceEnv where
  stored : Option String
  uuidResult : Option String
  fallbackId : String
  writeFails : Bool
deriving Repr, DecidableEq

/-- The id `getDeviceId` generates when storage is empty: the result of
`crypto.randomUUID()`, or the timestamp-plus-random composite when the
secure generator throws (the try/catch covers only that call). -/
def genId (env : DeviceEnv) : String :=
  match env.uuidResult with
  | some v => v
  | none => env.fallbackId

/-- Embedding of `getDeviceId` (lines 484-496).  Returns the id together
with the resulting storage content, or an error when the raised storage
write propagates: the `localStorage.setItem` call sits outside the
try/catch, so a failing write is not caught. -/
def getDeviceId (env : DeviceEnv) : Except Unit (String × Option String) :=
  if jsTruthyStr env.stored then
    .ok (env.stored.getD "", env.stored)
  else
    if env.writeFails then .error ()
    else .ok (genId env, some (genId env))

/-! ## SessionGuard: `registerSessionForUser` (lines 498-536) -/

/-- A row of the `active_sessions` table. -/
structure SessionRow where
  user_id : String
  device_id : Option String
  is_active : Bool
  session_flag : Option String
  last_heartbeat : Int
deriving Repr, DecidableEq

/-- The observable outcome of `registerSessionForUser`: the boolean it
returns, the resulting stored row for this user, whether the
identity-provider sign-out was invoked, and whether the
already-active-on-another-device notification was shown. -/
structure RegisterResult where
  success : Bool
  store : Option SessionRow
  providerSignedOut : Bool
  notifiedConflict : Bool
deriving Repr, DecidableEq

/-- The row upserted by `registerSessionForUser` (lines 518-526). -/
def upsertedRow (userId deviceId : String) (now : Int) : SessionRow :=
  ⟨userId, some deviceId, true, some "S", now⟩

/-- Embedding of `registerSessionForUser` (lines 498-536).  `stored` is
the current row for this user in the datastore; `selErr` records whether
the `maybeSingle` select returned an error, in which case its `data` is
null, the error is only logged, and the function proceeds as if no row
existed.  A stored row that is active on a truthy different device id
rejects the registration (provider sign-out, conflict notification, no
write); every other case upserts the fresh active row and succeeds. -/
def registerSessionForUser (stored : Option SessionRow) (selErr : Bool)
    (userId deviceId : String) (now : Int) : RegisterResult :=
  let existing : Option SessionRow := if selErr then none else stored
  match existing with
  | some row =>
    if row.is_active = true ∧ jsTruthyStr row.device_id = true ∧ row.device_id ≠ some deviceId then
      ⟨false, stored, true, true⟩
    else
      ⟨true, some (upsertedRow userId deviceId now), false, false⟩
  | none => ⟨true, some (upsertedRow userId deviceId now), false, false⟩

/-! ## SessionGuard: `handleSessionChange` (lines 597-625) -/

/-- The columns of a realtime change-event row that the handler reads;
each may be absent in an incomplete payload. -/
structure ChangeRow where
  device_id : Option String
  is_active : Option Bool
  session_flag : Option String
deriving Repr, DecidableEq

/-- A realtime change payload as delivered to `handleSessionChange`:
`eventType` or `event` carries the event kind, `newRow`/`oldRow` the row
images. -/
structure SessionPayload where
  eventType : Option String
  event : Option String
  newRow : Option ChangeRow
  oldRow : Option ChangeRow
deriving Repr, DecidableEq

/-- What a single `handleSessionChange` call does: a forced local
sign-out with the given message, nothing, or a caught exception (the
surrounding try/catch logs it and no sign-out happens). -/
inductive SessionOutcome where
  | signOut (message : String)
  | ignored
  | caughtError
deriving Repr, DecidableEq

/-- JavaScript `a || b` on nullable strings (empty string is falsy). -/
def jsOrStr (a b : Option String) : Option String :=
  if jsTruthyStr a then a else b

/-- Uppercasing of a nullable session flag, as in
`session_flag.toUpperCase()` (character-wise uppercasing, spelled out
over the character list so that it evaluates by reduction); only
evaluated behind a truthiness guard in the source, so the `none` case is
arbitrary. -/
def flagUpper : Option String → String
  | none => ""
  | some s => String.mk (s.data.map Char.toUpper)

/-- Embedding of `handleSessionChange` (lines 597-625).  The relevant
row is `new || old`; with no row the event is ignored.  A DELETE event
reads `old.device_id` (throwing into the catch when `old` is absent) and
forces sign-out only for the own device id.  Any other event forces
sign-out when the row is explicitly inactive or its flag uppercases to
N, or else when the row carries a truthy device id different from the
own one. -/
def handleSessionChange (payload : SessionPayload) (myDeviceId : String) : SessionOutcome :=
  let eventType := jsOrStr payload.eventType payload.event
  let relevantRow := match payload.newRow with
    | some r => some r
    | none => payload.oldRow
  match relevantRow with
  | none => .ignored
  | some row =>
    if eventType = some "DELETE" then
      match payload.oldRow with
      | none => .caughtError
      | some old =>
        if old.device_id = some myDeviceId then
          .signOut "Your session was ended (deleted) – you have been signed out."
        else .ignored
    else
      if row.is_active = some false ∨ (jsTruthyStr row.session_flag = true ∧ flagUpper row.session_flag = "N") then
        .signOut "Your session was disabled by admin – you have been signed out."
      else if jsTruthyStr row.device_id = true ∧ row.device_id ≠ some myDeviceId then
        .signOut "Your account was used on another device – signed out here."
      else .ignored

/-- Classification of session-change events exactly as the specification
sentence states it: delete with matching prior device id signs out,
delete with a different prior device id does not; insert/update with an
inactive row or an N flag signs out; an update (and only an update) with
a present, differing device id signs out; all other events are ignored.
Written from the specification wording, to be compared against
`handleSessionChange`. -/
def claimC3Classify (payload : SessionPayload) (myDeviceId : String) : SessionOutcome :=
  let eventType := jsOrStr payload.eventType payload.event
  if eventType = some "DELETE" then
    match payload.oldRow with
    | some old =>
      if old.device_id = some myDeviceId then
        .signOut "Your session was ended (deleted) – you have been signed out."
      else .ignored
    | none => .ignored
  else if eventType = some "INSERT" ∨ eventType = some "UPDATE" then
    match (match payload.newRow with | some r => some r | none => payload.oldRow) with
    | some row =>
      if row.is_active = some false ∨ (jsTruthyStr row.session_flag = true ∧ flagUpper row.session_flag = "N") then
        .signOut "Your session was disabled by admin – you have been signed out."
      else if eventType = some "UPDATE" ∧ jsTruthyStr row.device_id = true ∧ row.device_id ≠ some myDeviceId then
        .signOut "Your account was used on another device – signed out here."
      else .ignored
    | none => .ignored
  else .ignored

/-- The amended classification: identical to the specification sentence
except that the differing-device-id rule fires on every non-delete event
(inserts included, as the code applies it outside the DELETE branch),
and a delete payload that carries only a new image hits the caught
exception path. -/
def amendedC3Classify (payload : SessionPayload) (myDeviceId : String) : SessionOutcome :=
  let eventType := jsOrStr payload.eventType payload.event
  if eventType = some "DELETE" then
    if payload.newRow = none ∧ payload.oldRow = none then .ignored
    else
      match payload.oldRow with
      | none => .caughtError
      | some old =>
        if old.device_id = some myDeviceId then
          .signOut "Your session was ended (deleted) – you have been signed out."
        else .ignored
  else
    match (match payload.newRow with | some r => some r | none => payload.oldRow) with
    | none => .ignored
    | some row =>
      if row.is_active = some false ∨ (jsTruthyStr row.session_flag = true ∧ flagUpper row.session_flag = "N") then
        .signOut "Your session was disabled by admin – you have been signed out."
      else if jsTruthyStr row.device_id = true ∧ row.device_id ≠ some myDeviceId then
        .signOut "Your account was used on another device – signed out here."
      else .ignored

/-! ## EmbedPlayer: `openPlayer` (lines 2094-2161) -/

/-- The actions `openPlayer` can perform, in order, that matter to the
playback-gating behaviour: user-facing notifications, opening the
payment modal, committing the media state and player metadata, kicking
off the season load for series, building the embed source list,
rendering the source buttons, loading a source into the embedded
document, starting the 30-second progress timer, and showing the player
modal. -/
inductive PlayerAction where
  | notify (message : String) (level : String)
  | openPaymentModal
  | setMediaState
  | loadSeasons
  | buildEmbedSources
  | populateSourceButtons
  | loadSource (index : Nat)
  | startProgressTimer
  | showPlayerModal
deriving Repr, DecidableEq

/-- Embedding of `openPlayer` (lines 2094-2161) as the trace of actions
it performs, given whether a user is signed in (`currentUser`), whether
the process-wide entitlement flag `isUserApproved` is set, and whether
the selected item is a series. -/
def openPlayer (hasUser isUserApproved isTV : Bool) : List PlayerAction :=
  if hasUser = false then
    [.notify "Please log in to stream content" "error"]
  else if isUserApproved = false then
    [.notify "Premium access required to watch content. Please subscribe to continue." "error",
     .openPaymentModal]
  else
    .setMediaState ::
      (if isTV then [.loadSeasons] else []) ++
      [.buildEmbedSources, .populateSourceButtons, .loadSource 0,
       .startProgressTimer, .showPlayerModal]

/-! ## EmbedPlayer: `loadSource` retry loop (lines 2279-2322) -/

/-- Result of one `loadSource` call driven by the explicit
load-error/load-success signals of the embedded document:
`loadedAfter k backoffs` means attempt `k` (zero-based) fired the load
signal after the recorded retry backoff delays; `sourceFailed backoffs`
means the retries were exhausted and `handleSourceFailure` was called. -/
inductive LoadOutcome where
  | loadedAfter (errorCount : Nat) (backoffs : List Nat)
  | sourceFailed (backoffs : List Nat)
deriving Repr, DecidableEq

/-- Embedding of the `attemptLoad` closure of `loadSource` (lines
2295-2311).  `signalSuccess a` tells whether attempt `a` fires the
load signal of the embedded document (`onload`) rather than the error signal
(`onerror`); `retryCount` counts prior errors, exactly as the mutable
`retryCount` variable, and each retry is scheduled after
`1000 * retryCount` milliseconds. -/
def attemptLoad (signalSuccess : Nat → Bool) (maxRetries retryCount : Nat)
    (backoffs : List Nat) : LoadOutcome :=
  if signalSuccess retryCount then .loadedAfter retryCount backoffs
  else if _h : retryCount + 1 ≤ maxRetries then
    attemptLoad signalSuccess maxRetries (retryCount + 1) (backoffs ++ [1000 * (retryCount + 1)])
  else .sourceFailed backoffs
termination_by maxRetries + 1 - retryCount
decreasing_by omega

/-- One `loadSource` error-path run with the fixed `maxRetries = 2`
(line 2293), starting from `retryCount = 0`. -/
def loadSourceRetry (signalSuccess : Nat → Bool) : LoadOutcome :=
  attemptLoad signalSuccess 2 0 []

/-! ## EmbedPlayer: `handleSourceFailure` failover (lines 2324-2334) -/

/-- What `handleSourceFailure` does after hiding the loading state:
schedule a load of the next index (after notifying about the fallback),
or show the terminal all-sources-failed notice. -/
inductive FailureStep where
  | advance (nextIndex : Nat)
  | allFailed
deriving Repr, DecidableEq

/-- Embedding of `handleSourceFailure` (lines 2324-2334) for a source
list of length `sourceCount`: the next index is `(currentIndex + 1) %
sourceCount`, and the terminal notice fires only when that equals the
current index. -/
def handleSourceFailure (sourceCount currentIndex : Nat) : FailureStep :=
  let nextIndex := (currentIndex + 1) % sourceCount
  if nextIndex ≠ currentIndex then .advance nextIndex else .allFailed

/-- The index of the k-th load attempt in the run where playback starts
at `loadSource 0` and every loaded source fails (timeout or exhausted
retries): attempt 0 is index 0 if it passes the bounds check of
`loadSource` (line 2280), and each later attempt is the index
`handleSourceFailure` advanced to, `none` once the terminal notice has
fired (or an index failed the bounds check). -/
def attemptIndex (sourceCount : Nat) : Nat → Option Nat
  | 0 => if 0 < sourceCount then some 0 else none
  | k + 1 =>
    match attemptIndex sourceCount k with
    | none => none
    | some i =>
      match handleSourceFailure sourceCount i with
      | .advance j => if j < sourceCount then some j else none
      | .allFailed => none

/-- Whether the terminal all-sources-failed notice fires right after the
k-th attempt of the all-failing run. -/
def terminalNoticeAt (sourceCount k : Nat) : Bool :=
  match attemptIndex sourceCount k with
  | some i => handleSourceFailure sourceCount i = .allFailed
  | none => false

/-! ## Theorems -/

/-- C4: `isAllowedUser` yields `not_found` when no record exists,
`not_approved` when the approved field is not exactly true, `expired`
when an approved record carries an expiry strictly before now, allowed
when approved with an absent or not-yet-passed expiry, and fails closed
with reason `error` on a thrown lookup or any error other than the
no-rows code. -/
theorem isAllowedUser_spec (row : AllowedRow) (e now : Int) (c : String) :
    isAllowedUser (.result none none) now = ⟨false, some "not_found", none⟩
  ∧ isAllowedUser (.result none (some "PGRST116")) now = ⟨false, some "not_found", none⟩
  ∧ (row.approved ≠ some true →
      isAllowedUser (.result (some row) none) now = ⟨false, some "not_approved", none⟩)
  ∧ (row.approved = some true → row.expiry_date = some e → e < now →
      isAllowedUser (.result (some row) none) now = ⟨false, some "expired", none⟩)
  ∧ (row.approved = some true → row.expiry_date = some e → now ≤ e →
      isAllowedUser (.result (some row) none) now = ⟨true, none, some e⟩)
  ∧ (row.approved = some true → row.expiry_date = none →
      isAllowedUser (.result (some row) none) now = ⟨true, none, none⟩)
  ∧ isAllowedUser .thrown now = ⟨false, some "error", none⟩
  ∧ (c ≠ "PGRST116" → ∀ d, isAllowedUser (.result d (some c)) now = ⟨false, some "error", none⟩) := by
  refine ⟨by simp [isAllowedUser], by simp [isAllowedUser], ?_, ?_, ?_, ?_, by simp [isAllowedUser], ?_⟩
  · intro h
    simp [isAllowedUser, h]
  · intro h he hlt
    simp [isAllowedUser, h, he, hlt]
  · intro h he hge
    have hnlt : ¬ e < now := not_lt.mpr hge
    simp [isAllowedUser, h, he, hnlt]
  · intro h he
    simp [isAllowedUser, h, he]
  · intro hc d
    cases d <;> simp [isAllowedUser, hc]

/-- Witness for `isAllowedUser_spec` at concrete records. -/
theorem isAllowedUser_spec_witness :
    isAllowedUser (.result (some ⟨"u", some false, none⟩) none) 10 = ⟨false, some "not_approved", none⟩
  ∧ isAllowedUser (.result (some ⟨"u", some true, some 5⟩) none) 10 = ⟨false, some "expired", none⟩
  ∧ isAllowedUser (.result (some ⟨"u", some true, some 20⟩) none) 10 = ⟨true, none, some 20⟩
  ∧ isAllowedUser (.result (some ⟨"u", some true, none⟩) none) 10 = ⟨true, none, none⟩
  ∧ isAllowedUser (.result none (some "boom")) 10 = ⟨false, some "error", none⟩ :=
  ⟨(isAllowedUser_spec ⟨"u", some false, none⟩ 0 10 "boom").2.2.1 (by decide),
   (isAllowedUser_spec ⟨"u", some true, some 5⟩ 5 10 "boom").2.2.2.1 rfl rfl (by decide),
   (isAllowedUser_spec ⟨"u", some true, some 20⟩ 20 10 "boom").2.2.2.2.1 rfl rfl (by decide),
   (isAllowedUser_spec ⟨"u", some true, none⟩ 0 10 "boom").2.2.2.2.2.1 rfl rfl,
   (isAllowedUser_spec ⟨"u", some true, none⟩ 0 10 "boom").2.2.2.2.2.2.2 (by decide) none⟩

/-- C9: when the select of the existing session row errors, the error is
only logged: `registerSessionForUser` proceeds as if no session existed,
upserts this device as the active session and reports success, whatever
foreign row is actually stored. -/
theorem registerSessionForUser_selErr (stored : Option SessionRow) (uid b : String) (now : Int) :
    registerSessionForUser stored true uid b now
      = ⟨true, some (upsertedRow uid b now), false, false⟩ := rfl

/-- C2: registration from device `b` against a stored active session on
a different (truthy) device id fails, signs the fresh session out at the
identity provider and leaves the stored row unchanged; with no row, the
same device id, or an inactive row it succeeds and upserts the fresh
active row. -/
theorem registerSessionForUser_spec (row : SessionRow) (uid a b : String) (now : Int) :
    (row.is_active = true → row.device_id = some a → a ≠ "" → a ≠ b →
      registerSessionForUser (some row) false uid b now = ⟨false, some row, true, true⟩)
  ∧ registerSessionForUser none false uid b now = ⟨true, some (upsertedRow uid b now), false, false⟩
  ∧ (row.device_id = some b →
      registerSessionForUser (some row) false uid b now
        = ⟨true, some (upsertedRow uid b now), false, false⟩)
  ∧ (row.is_active = false →
      registerSessionForUser (some row) false uid b now
        = ⟨true, some (upsertedRow uid b now), false, false⟩) := by
  refine ⟨?_, rfl, ?_, ?_⟩
  · intro h1 h2 h3 h4
    simp [registerSessionForUser, h1, h2, jsTruthyStr, h3, h4]
  · intro h
    simp [registerSessionForUser, h]
  · intro h
    simp [registerSessionForUser, h]

/-- Witness for `registerSessionForUser_spec`: a conflicting second
device is rejected and the stored row keeps device id A. -/
theorem registerSessionForUser_spec_witness :
    registerSessionForUser (some ⟨"u", some "A", true, some "S", 0⟩) false "u" "B" 5
      = ⟨false, some ⟨"u", some "A", true, some "S", 0⟩, true, true⟩ :=
  (registerSessionForUser_spec ⟨"u", some "A", true, some "S", 0⟩ "u" "A" "B" 5).1
    rfl rfl (by decide) (by decide)

/-- C5: with no authenticated user or without entitlement, `openPlayer`
neither builds embed sources nor loads any source into the embedded
document, and in the signed-in non-entitled case it opens the payment
modal. -/
theorem openPlayer_gating (hasUser isUserApproved isTV : Bool)
    (h : hasUser = false ∨ isUserApproved = false) :
    (∀ i, PlayerAction.loadSource i ∉ openPlayer hasUser isUserApproved isTV)
  ∧ PlayerAction.buildEmbedSources ∉ openPlayer hasUser isUserApproved isTV
  ∧ (hasUser = true → isUserApproved = false →
      PlayerAction.openPaymentModal ∈ openPlayer hasUser isUserApproved isTV) := by
  refine ⟨?_, ?_, ?_⟩
  · intro i
    rcases h with h | h <;> subst h
    · simp [openPlayer]
    · cases hasUser <;> simp [openPlayer]
  · rcases h with h | h <;> subst h
    · simp [openPlayer]
    · cases hasUser <;> simp [openPlayer]
  · intro hu ha
    subst hu
    subst ha
    simp [openPlayer]

/-- Witness for `openPlayer_gating`: a signed-in, non-entitled playback
attempt opens the payment modal. -/
theorem openPlayer_gating_witness :
    PlayerAction.openPaymentModal ∈ openPlayer true false false :=
  (openPlayer_gating true false false (Or.inr rfl)).2.2 rfl rfl

/-- C7: for an upsert that passes the 60-second guard, the stored row is
completed exactly when position over duration exceeds 9/10; concretely
400 of 500 stores an incomplete row rendering as 80 percent, and 460 of
500 stores a completed row. -/
theorem updateWatchProgress_completed (t d : ℚ) (row : ProgressRow)
    (ht : 60 ≤ t) (hrow : updateWatchProgress true true t d = some row) :
    (row.completed = true ↔ 9 / 10 < t / d)
  ∧ updateWatchProgress true true 400 500 = some ⟨400, 500, false⟩
  ∧ progressPercentage 400 500 = 80
  ∧ updateWatchProgress true true 460 500 = some ⟨460, 500, true⟩ := by
  have hnlt : ¬ t < 60 := not_lt.mpr ht
  rw [updateWatchProgress] at hrow
  simp only [hnlt, or_false, or_self, if_false] at hrow
  refine ⟨?_, ?_, ?_, ?_⟩
  · rw [← Option.some_inj.mp hrow]
    simp only [decide_eq_true_eq]
    rw [progressPercent]
    by_cases hd : 0 < d
    · rw [if_pos hd]
      constructor <;> intro hx <;> nlinarith
    · rw [if_neg hd]
      push_neg at hd
      constructor
      · intro hx
        exact absurd hx (by norm_num)
      · intro hx
        rcases eq_or_lt_of_le hd with h0 | h0
        · rw [h0] at hx
          rw [div_zero] at hx
          exact absurd hx (by norm_num)
        · have : t / d < 0 := div_neg_of_pos_of_neg (by linarith) h0
          linarith
  · rw [updateWatchProgress]
    norm_num [progressPercent]
  · rw [progressPercentage]
    norm_num
  · rw [updateWatchProgress]
    norm_num [progressPercent]

/-- Witness for `updateWatchProgress_completed` at the 80-percent
input. -/
theorem updateWatchProgress_completed_witness :
    ((⟨400, 500, false⟩ : ProgressRow).completed = true ↔ (9 : ℚ) / 10 < 400 / 500) :=
  (updateWatchProgress_completed 400 500 ⟨400, 500, false⟩ (by norm_num)
    (by rw [updateWatchProgress]; norm_num [progressPercent])).1

/-- C10: the progress computation is division-guarded: with a
non-positive duration `updateWatchProgress` computes percentage 0 and
stores an uncompleted row, and `loadContinueWatching` maps a
non-positive stored total duration to percentage 0. -/
theorem progress_division_guard (t d : ℚ) (wp td : Int)
    (hd : d ≤ 0) (ht : 60 ≤ t) (htd : td ≤ 0) :
    progressPercent t d = 0
  ∧ updateWatchProgress true true t d = some ⟨⌊t⌋, ⌊d⌋, false⟩
  ∧ progressPercentage wp td = 0 := by
  have hdn : ¬ 0 < d := not_lt.mpr hd
  have hp : progressPercent t d = 0 := by rw [progressPercent, if_neg hdn]
  refine ⟨hp, ?_, ?_⟩
  · rw [updateWatchProgress]
    rw [if_neg]
    · rw [hp]
      norm_num
    · push_neg
      exact ⟨by decide, by decide, ht⟩
  · rw [progressPercentage, if_neg (not_lt.mpr htd)]

/-- Witness for `progress_division_guard` at duration 0. -/
theorem progress_division_guard_witness :
    progressPercent 100 0 = 0
  ∧ updateWatchProgress true true 100 0 = some ⟨⌊(100 : ℚ)⌋, ⌊(0 : ℚ)⌋, false⟩
  ∧ progressPercentage 70 0 = 0 :=
  progress_division_guard 100 0 70 0 (by norm_num) (by norm_num) (by norm_num)

/-- C6: within one `loadSource` call, two load errors followed by a
successful third attempt load the source after backoffs of 1000 and
2000 milliseconds and never reach `handleSourceFailure`; a third
consecutive error instead exhausts the retries and declares the source
failed. -/
theorem loadSource_retry_spec (signalSuccess : Nat → Bool)
    (h0 : signalSuccess 0 = false) (h1 : signalSuccess 1 = false) :
    (signalSuccess 2 = true →
      loadSourceRetry signalSuccess = .loadedAfter 2 [1000, 2000])
  ∧ (signalSuccess 2 = false →
      loadSourceRetry signalSuccess = .sourceFailed [1000, 2000]) := by
  constructor <;> intro h2 <;>
    rw [loadSourceRetry, attemptLoad, attemptLoad, attemptLoad] <;>
    simp [h0, h1, h2]

/-- Witness for `loadSource_retry_spec`: the source that succeeds
exactly on its third attempt. -/
theorem loadSource_retry_spec_witness :
    loadSourceRetry (fun a => decide (a = 2)) = .loadedAfter 2 [1000, 2000] :=
  (loadSource_retry_spec (fun a => decide (a = 2)) (by decide) (by decide)).1 (by decide)

/-- C8 counterexample: with empty storage and a failing durable-storage
write, `getDeviceId` propagates the raised write error instead of
returning an identifier: the storage write sits outside the
try/catch. -/
theorem getDeviceId_write_failure :
    getDeviceId ⟨none, some "uuid-1", "fb1", true⟩ = .error () := rfl

/-- C8 amended: when a stored identifier exists `getDeviceId` returns it
without touching storage; when storage is empty and the write succeeds
it returns and stores the freshly generated id; and a successful call is
idempotent: a later call in the resulting storage scope returns the same
id whatever the later generator or write behaviour is.  Only a failing
write during a first retrieval raises. -/
theorem getDeviceId_amended (env : DeviceEnv) :
    (jsTruthyStr env.stored = true → getDeviceId env = .ok (env.stored.getD "", env.stored))
  ∧ (jsTruthyStr env.stored = false → env.writeFails = false →
      getDeviceId env = .ok (genId env, some (genId env)))
  ∧ (∀ d st, getDeviceId env = .ok (d, st) → d ≠ "" →
      ∀ u f w, getDeviceId ⟨st, u, f, w⟩ = .ok (d, st)) := by
  refine ⟨?_, ?_, ?_⟩
  · intro h
    rw [getDeviceId, if_pos h]
  · intro h hw
    rw [getDeviceId, if_neg (by rw [h]; exact Bool.false_ne_true), if_neg (by rw [hw]; exact Bool.false_ne_true)]
  · intro d st hok hd u f w
    rw [getDeviceId] at hok
    by_cases h : jsTruthyStr env.stored = true
    · rw [if_pos h] at hok
      obtain ⟨hdd, hst⟩ : env.stored.getD "" = d ∧ env.stored = st := by
        simpa using hok
      subst hst
      rw [getDeviceId]
      rw [if_pos h, hdd]
    · rw [if_neg h] at hok
      by_cases hw : env.writeFails = true
      · rw [if_pos hw] at hok
        exact absurd hok (by simp)
      · rw [if_neg hw] at hok
        obtain ⟨hdd, hst⟩ : genId env = d ∧ some (genId env) = st := by
          simpa using hok
        subst hdd
        subst hst
        rw [getDeviceId, if_pos (by simp [jsTruthyStr, hd])]
        rfl

/-- Witness for `getDeviceId_amended`: a fresh id written on the first
call is returned unchanged by a second call even when that second call
would be unable to generate or write. -/
theorem getDeviceId_amended_witness :
    getDeviceId ⟨some "dev-7", none, "fb", true⟩ = .ok ("dev-7", some "dev-7") :=
  (getDeviceId_amended ⟨none, some "dev-7", "fb", false⟩).2.2 "dev-7" (some "dev-7")
    rfl (by decide) none "fb" true

/-- C3 counterexample: an INSERT event carrying an active row with flag
S on a foreign device id makes `handleSessionChange` force a sign-out,
while the claimed classification, which restricts the differing-device
rule to updates, marks the event ignored. -/
theorem sessionChange_insert_foreign :
    handleSessionChange ⟨some "INSERT", none, some ⟨some "other", some true, some "S"⟩, none⟩ "mine"
      = .signOut "Your account was used on another device – signed out here."
  ∧ claimC3Classify ⟨some "INSERT", none, some ⟨some "other", some true, some "S"⟩, none⟩ "mine"
      = .ignored := by
  constructor <;> rfl

/-- C3 amended: `handleSessionChange` agrees everywhere with the amended
classification: delete events force exactly one sign-out precisely on a
matching prior device id (hitting the caught-exception path when the
prior image is missing); every non-delete event forces sign-out on an
explicitly inactive row or an N flag, else on a present differing device
id (inserts included, not only updates); everything else is ignored. -/
theorem handleSessionChange_amended (p : SessionPayload) (my : String) :
    handleSessionChange p my = amendedC3Classify p my := by
  rw [handleSessionChange, amendedC3Classify]
  cases hn : p.newRow <;> cases ho : p.oldRow <;> simp

/-- The step of `handleSourceFailure` never meets its terminal branch
when at least two sources exist: the ring successor of an in-range index
differs from it. -/
theorem succMod_ne_self (n i : Nat) (hn : 2 ≤ n) (hi : i < n) : (i + 1) % n ≠ i := by
  rcases Nat.lt_or_ge (i + 1) n with h | h
  · rw [Nat.mod_eq_of_lt h]
    omega
  · have he : i + 1 = n := by omega
    rw [he, Nat.mod_self]
    omega

/-- With at least two sources, `handleSourceFailure` always advances to
the ring successor. -/
theorem handleSourceFailure_advance (n i : Nat) (hn : 2 ≤ n) (hi : i < n) :
    handleSourceFailure n i = .advance ((i + 1) % n) := by
  rw [handleSourceFailure]
  simp [succMod_ne_self n i hn hi]

/-- C1 counterexample: with 4 sources and every load failing, the first
four attempts hit indices 0 to 3, but the failover then wraps around: a
fifth load attempt occurs, at index 0 again, and the terminal
all-sources-failed notice does not fire at any of the first 12 steps. -/
theorem failover_fifth_attempt :
    attemptIndex 4 0 = some 0 ∧ attemptIndex 4 1 = some 1
  ∧ attemptIndex 4 2 = some 2 ∧ attemptIndex 4 3 = some 3
  ∧ attemptIndex 4 4 = some 0
  ∧ (∀ k, k < 12 → terminalNoticeAt 4 k = false) := by decide

/-- C1 amended: the failover traversal driven by `handleSourceFailure`
is unbounded for two or more sources: in the all-failing run, attempt
`k` occurs at index `k` modulo the source count for every `k`, and the
terminal notice never fires; the terminal notice occurs, exactly once
and immediately after the single attempt, only in the one-source
case. -/
theorem failover_unbounded (n : Nat) (hn : 2 ≤ n) :
    (∀ k, attemptIndex n k = some (k % n))
  ∧ (∀ k, terminalNoticeAt n k = false)
  ∧ (attemptIndex 1 0 = some 0 ∧ terminalNoticeAt 1 0 = true
      ∧ ∀ k, attemptIndex 1 (k + 1) = none) := by
  have hpos : 0 < n := by omega
  have key : ∀ k, attemptIndex n k = some (k % n) := by
    intro k
    induction k with
    | zero =>
      rw [attemptIndex, if_pos hpos]
      rw [Nat.zero_mod]
    | succ k ih =>
      have hk : k % n < n := Nat.mod_lt _ hpos
      have hadv := handleSourceFailure_advance n (k % n) hn hk
      have hmod : (k % n + 1) % n = (k + 1) % n := by
        conv_rhs => rw [Nat.add_mod]
        rw [Nat.mod_eq_of_lt (show 1 < n by omega)]
      have hlt : (k + 1) % n < n := Nat.mod_lt _ hpos
      simp [attemptIndex, ih, hadv, hmod, hlt]
  refine ⟨key, ?_, by decide, by decide, ?_⟩
  · intro k
    simp [terminalNoticeAt, key k,
      handleSourceFailure_advance n (k % n) hn (Nat.mod_lt _ hpos)]
  · intro k
    induction k with
    | zero => decide
    | succ k ih =>
      rw [attemptIndex, ih]

/-- Witness for `failover_unbounded` with the configured 4 sources. -/
theorem failover_unbounded_witness :
    attemptIndex 4 5 = some (5 % 4) ∧ terminalNoticeAt 4 5 = false :=
  ⟨(failover_unbounded 4 (by decide)).1 5, (failover_unbounded 4 (by decide)).2.1 5⟩
